import Mathlib

/-!
# magallardo/contrib: SQL query activity and string.trimLeft

A shallow embedding of `activity/sqlquery/activity.go` and
`function/string/trimleft.go`.

Conventions of the embedding.

* A Go `error` result is `Option GoError`; `none` is the nil error.
* A Go slice that is only ever grown by `append` from its nil zero value is a
  `List`; it is nil exactly when it is `[]`.
* Calls into `database/sql` are recorded as `Event`s, returned next to the
  result of every function that performs them, in call order.
* The answers of the database, of the flogo host and of the `util` package
  (whose source is not part of the embedded files) are fields of `Env`,
  `Rows`, `DbHelper` and `SQLStatement`.
-/

namespace sqlquery

/-- A non-nil Go error, identified by its message. -/
abbrev GoError := String

/-- The pointee type of a scan target: `*interface{}` (dynamic) or a pointer to
one of the typed receivers of the driver helper, identified by its type name. -/
inductive SlotKind
  | dynamic
  | typed (name : String)
  deriving DecidableEq, Repr

/-- Dynamically typed Go values (`interface{}`) that flow through arguments and
results.  `slot kind contents` is a pointer to a scan target of that kind whose
pointee currently holds `contents`. -/
inductive Value
  | null
  | int (i : Int)
  | text (s : String)
  | bool (b : Bool)
  | slot (kind : SlotKind) (contents : Value)
  deriving DecidableEq, Repr

/-- Column metadata, `*sql.ColumnType`. -/
structure ColumnType where
  name : String
  databaseTypeName : String
  deriving DecidableEq, Repr

/-- The result of a Go function that returns `(value, error)` and may panic. -/
inductive Go (α : Type)
  | panic
  | ret (value : α) (err : Option GoError)
  deriving DecidableEq, Repr

/-- A Go `map[string]interface{}`: an association list with distinct keys. -/
abbrev GoMap := List (String × Value)

/-- The assignment `m[k] = v`: any earlier entry for `k` is replaced. -/
def GoMap.set (m : GoMap) (k : String) (v : Value) : GoMap :=
  (k, v) :: m.filter (fun p => p.1 ≠ k)

/-- The read `m[k]`, `none` when the key is absent. -/
def GoMap.get (m : GoMap) (k : String) : Option Value :=
  List.lookup k m

/-- The keys of a map. -/
def GoMap.keys (m : GoMap) : List String :=
  m.map Prod.fst

/-- The value an activity hands to the host: `[][]interface{}` or
`[]map[string]interface{}` boxed in an `interface{}`. -/
inductive ResultSet
  | positional (rows : List (List Value))
  | labeled (rows : List GoMap)
  deriving DecidableEq, Repr

/-- Modelled from the spec: the statement kinds of `util`, whose declaration is
not among the sources.  A statement classifies to exactly one kind; `StSelect`
is the read/select kind, the only one `activity.go` names. -/
inductive StatementType
  | StSelect
  | StOther (tag : Nat)
  deriving DecidableEq, Repr

/-- Handle `*sql.DB`. -/
structure DB where
  driverName : String
  dataSourceName : String
  deriving DecidableEq, Repr

/-- Handle `*sql.Stmt`. -/
structure Stmt where
  query : String
  deriving DecidableEq, Repr

/-- Observable calls, in the order the code makes them. -/
inductive Event
  | sqlOpen (driverName dataSourceName : String)
  | setMaxOpenConns (n : Int)
  | setMaxIdleConns (n : Int)
  | prepare (query : String)
  | stmtQuery (stmt : Stmt) (args : List Value)
  | dbQuery (db : DB) (query : String)
  | getScanType (ct : ColumnType)
  | scan (targets : Nat)
  | rowsClose
  | stmtClose (stmt : Stmt)
  | dbClose (db : DB)
  | setOutput (name : String) (value : Option ResultSet)
  deriving DecidableEq, Repr

/-- The cursor `*sql.Rows`: the column metadata (or the error `Columns` and
`ColumnTypes` return), the rows `Next` yields with their native values, the
error `Err` reports once `Next` has returned false, and the conversion
`database/sql` applies when a native value is stored in a typed receiver. -/
structure Rows where
  metaErr : Option GoError
  columnTypes : List ColumnType
  data : List (List Value)
  iterErr : Option GoError
  convert : String → Value → Except GoError Value

/-- Method `rows.Columns()`. -/
def Rows.Columns (rows : Rows) : Except GoError (List String) :=
  match rows.metaErr with
  | some err => .error err
  | none => .ok (rows.columnTypes.map ColumnType.name)

/-- Method `rows.ColumnTypes()`. -/
def Rows.ColumnTypes (rows : Rows) : Except GoError (List ColumnType) :=
  match rows.metaErr with
  | some err => .error err
  | none => .ok rows.columnTypes

/-- Storing one native value through one destination, `convertAssign` of
`database/sql`: a `*interface{}` receives the value as it is, a typed
receiver what the conversion yields, anything else is refused. -/
def convertAssign (rows : Rows) : Value → Value → Except GoError Value
  | .slot .dynamic _, src => .ok (.slot .dynamic src)
  | .slot (.typed n) _, src =>
    match rows.convert n src with
    | .ok v => .ok (.slot (.typed n) v)
    | .error err => .error err
  | _, _ => .error "destination not a pointer"

/-- Column by column assignment of the current row to the destinations. -/
def scanInto (rows : Rows) : List Value → List Value → Except GoError (List Value)
  | [], _ => .ok []
  | _ :: _, [] => .error "sql: missing column value"
  | d :: ds, s :: ss =>
    match convertAssign rows d s with
    | .error err => .error err
    | .ok d1 =>
      match scanInto rows ds ss with
      | .error err => .error err
      | .ok ds1 => .ok (d1 :: ds1)

/-- Method `rows.Scan(dest...)` on the current row: the destinations after the
call, or the error. -/
def Rows.Scan (rows : Rows) (current : List Value) (dest : List Value) :
    Except GoError (List Value) :=
  if dest.length ≠ current.length then
    .error "sql: wrong number of destination arguments in Scan"
  else scanInto rows dest current

/-- Modelled from the spec: the driver helper `util.DbHelper`, whose declaration
is not among the sources.  `GetScanType` inspects a column's metadata and
returns a fresh receiving slot of the type it picks (a typed slot, or the
generic dynamic slot as fallback); the slot starts at its zero value. -/
structure DbHelper where
  GetScanType : ColumnType → SlotKind

/-- The loop `values[i] = dbHelper.GetScanType(columnTypes[i])`. -/
def scanTargets (dbHelper : DbHelper) (columnTypes : List ColumnType) : List Value :=
  columnTypes.map (fun ct => Value.slot (dbHelper.GetScanType ct) Value.null)

/-- The `GetScanType` calls of one row. -/
def scanTargetEvents (columnTypes : List ColumnType) : List Event :=
  columnTypes.map Event.getScanType

/-- The `for rows.Next()` loop of `getResults` over the rows still to come,
with the `results` built so far. -/
def getResultsLoop (dbHelper : DbHelper) (rows : Rows) (columnTypes : List ColumnType) :
    List (List Value) → List (List Value) → List Event × (List (List Value) × Option GoError)
  | [], results => ([], (results, rows.iterErr))
  | current :: rest, results =>
    let values := scanTargets dbHelper columnTypes
    let evs := scanTargetEvents columnTypes ++ [Event.scan values.length]
    match rows.Scan current values with
    | .error err => (evs, ([], some err))
    | .ok values =>
      let r := getResultsLoop dbHelper rows columnTypes rest (results ++ [values])
      (evs ++ r.1, r.2)

/-- Function `getResults`. -/
def getResults (dbHelper : DbHelper) (rows : Rows) :
    List Event × (List (List Value) × Option GoError) :=
  match rows.ColumnTypes with
  | .error err => ([], ([], some err))
  | .ok columnTypes => getResultsLoop dbHelper rows columnTypes rows.data []

/-- The expression `*(v.(*interface{}))`; `none` is the panic of a failed type
assertion. -/
def derefDynamic : Value → Option Value
  | .slot .dynamic v => some v
  | _ => none

/-- The loop `for i, column := range columns { resMap[column] = *(values[i].(*interface{})) }`;
`none` is a panic (failed assertion or index out of range). -/
def fillMap : List String → List Value → GoMap → Option GoMap
  | [], _, resMap => some resMap
  | _ :: _, [], _ => none
  | column :: columns, v :: values, resMap =>
    match derefDynamic v with
    | none => none
    | some x => fillMap columns values (resMap.set column x)

/-- The `for rows.Next()` loop of `getLabeledResults`. -/
def getLabeledResultsLoop (dbHelper : DbHelper) (rows : Rows) (columns : List String)
    (columnTypes : List ColumnType) :
    List (List Value) → List GoMap → List Event × Go (List GoMap)
  | [], results => ([], .ret results rows.iterErr)
  | current :: rest, results =>
    let values := scanTargets dbHelper columnTypes
    let evs1 := scanTargetEvents columnTypes ++ [Event.scan values.length]
    match rows.Scan current values with
    | .error err => (evs1, .ret [] (some err))
    | .ok values =>
      let evs2 := evs1 ++ [Event.scan values.length]
      match rows.Scan current values with
      | .error err => (evs2, .ret [] (some err))
      | .ok values =>
        match fillMap columns values [] with
        | none => (evs2, .panic)
        | some resMap =>
          let r := getLabeledResultsLoop dbHelper rows columns columnTypes rest
            (results ++ [resMap])
          (evs2 ++ r.1, r.2)

/-- Function `getLabeledResults`. -/
def getLabeledResults (dbHelper : DbHelper) (rows : Rows) : List Event × Go (List GoMap) :=
  match rows.Columns with
  | .error err => ([], .ret [] (some err))
  | .ok columns =>
    match rows.ColumnTypes with
    | .error err => ([], .ret [] (some err))
    | .ok columnTypes => getLabeledResultsLoop dbHelper rows columns columnTypes rows.data []

/-- Modelled from the spec: the `Settings` type declaration (metadata.go) is not
among the sources; these are the fields `activity.go` reads, which the spec
lists as the construction-time options `dialect`, `driverName`,
`dataSourceDescriptor`, `maxOpenConnections`, `maxIdleConnections`,
`disablePreparedStatement` and `query`. -/
structure Settings where
  DbType : String
  DriverName : String
  DataSourceName : String
  MaxOpenConns : Int
  MaxIdleConns : Int
  DisablePrepared : Bool
  Query : String
  deriving DecidableEq, Repr

/-- Modelled from the spec: the compiled statement `*util.SQLStatement`, whose
declaration is not among the sources, given by what the four methods
`activity.go` calls return (`stmtType` is the method `Type`): the statement
kind, the positional-marker text, the ordered bind values for an argument
mapping, and the literal-substituted text for an argument mapping. -/
structure SQLStatement where
  stmtType : StatementType
  PreparedStatementSQL : String
  GetPreparedStatementArgs : GoMap → List Value
  ToStatementSQL : GoMap → String

/-- What the world outside `activity.go` answers: the two `util` constructors
and the `database/sql` calls. -/
structure Env where
  GetDbHelper : String → Except GoError DbHelper
  NewSQLStatement : DbHelper → String → Except GoError SQLStatement
  sqlOpen : String → String → Option GoError
  Prepare : DB → String → Option GoError
  stmtQuery : Stmt → List Value → Except GoError Rows
  dbQuery : DB → String → Except GoError Rows
  stmtClose : Stmt → Option GoError
  dbClose : DB → Option GoError

/-- The host's `activity.InitContext`: `MapToStruct` is
`metadata.MapToStruct(ctx.Settings(), s, true)` as a function of the settings
struct it is given to fill. -/
structure InitContext where
  MapToStruct : Settings → Except GoError Settings

/-- The host's `activity.Context` of one invocation. -/
structure Context where
  GetInputObject : Except GoError GoMap
  SetOutput : String → Option ResultSet → Option GoError

/-- Constant `ovResults`. -/
def ovResults : String := "results"

/-- The literal `&Settings{MaxIdleConns: 2}`. -/
def newSettings : Settings :=
  { DbType := "", DriverName := "", DataSourceName := "", MaxOpenConns := 0,
    MaxIdleConns := 2, DisablePrepared := false, Query := "" }

/-- Function `getConnection`. -/
def getConnection (env : Env) (s : Settings) : List Event × Except GoError DB :=
  match env.sqlOpen s.DriverName s.DataSourceName with
  | some err => ([Event.sqlOpen s.DriverName s.DataSourceName], .error err)
  | none =>
    let db : DB := { driverName := s.DriverName, dataSourceName := s.DataSourceName }
    let evs1 := if s.MaxOpenConns > 0 then [Event.setMaxOpenConns s.MaxOpenConns] else []
    let evs2 := if s.MaxIdleConns ≠ 2 then [Event.setMaxIdleConns s.MaxIdleConns] else []
    ([Event.sqlOpen s.DriverName s.DataSourceName] ++ evs1 ++ evs2, .ok db)

/-- Type `Activity`.  `stmt` is the one field the code tests against nil; the
other handles are the non-nil values `New` stores. -/
structure Activity where
  dbHelper : DbHelper
  db : DB
  sqlStatement : SQLStatement
  stmt : Option Stmt
  labeledResults : Bool

/-- Function `New`: the events, the activity (`none` is nil) and the error. -/
def New (env : Env) (ctx : InitContext) : List Event × (Option Activity × Option GoError) :=
  match ctx.MapToStruct newSettings with
  | .error err => ([], (none, some err))
  | .ok s =>
    match env.GetDbHelper s.DbType with
    | .error err => ([], (none, some err))
    | .ok dbHelper =>
      match (getConnection env s).2 with
      | .error err => ((getConnection env s).1, (none, some err))
      | .ok db =>
        match env.NewSQLStatement dbHelper s.Query with
        | .error err => ((getConnection env s).1, (none, some err))
        | .ok sqlStatement =>
          if sqlStatement.stmtType ≠ StatementType.StSelect then
            ((getConnection env s).1, (none, some "only select statement is supported"))
          else
            let act : Activity :=
              { db := db, dbHelper := dbHelper, sqlStatement := sqlStatement,
                stmt := none, labeledResults := false }
            if ¬ s.DisablePrepared then
              let evs := (getConnection env s).1 ++
                [Event.prepare sqlStatement.PreparedStatementSQL]
              match env.Prepare db sqlStatement.PreparedStatementSQL with
              | some err => (evs, (none, some err))
              | none =>
                (evs, (some { act with stmt := some { query := sqlStatement.PreparedStatementSQL } },
                  none))
            else ((getConnection env s).1, (some act, none))

/-- The value `activityMd`. -/
inductive Metadata
  | activityMd
  deriving DecidableEq, Repr

/-- Method `Metadata`. -/
def Activity.Metadata (_a : Activity) : Metadata :=
  Metadata.activityMd

/-- Method `Cleanup` (its log lines are not recorded). -/
def Activity.Cleanup (env : Env) (a : Activity) : List Event × Option GoError :=
  let evs :=
    match a.stmt with
    | some stmt => [Event.stmtClose stmt]
    | none => []
  (evs ++ [Event.dbClose a.db], env.dbClose a.db)

/-- The query of `doSelect`: through the prepared handle when there is one,
else the substituted text on the connection. -/
def Activity.query (env : Env) (a : Activity) (params : GoMap) :
    List Event × Except GoError Rows :=
  match a.stmt with
  | some stmt =>
    let args := a.sqlStatement.GetPreparedStatementArgs params
    ([Event.stmtQuery stmt args], env.stmtQuery stmt args)
  | none =>
    let text := a.sqlStatement.ToStatementSQL params
    ([Event.dbQuery a.db text], env.dbQuery a.db text)

/-- Method `doSelect`; the deferred `rows.Close()` runs on every exit once the
query has succeeded. -/
def Activity.doSelect (env : Env) (a : Activity) (params : GoMap) :
    List Event × Go (Option ResultSet) :=
  match (a.query env params).2 with
  | .error err => ((a.query env params).1, .ret none (some err))
  | .ok rows =>
    if a.labeledResults then
      let evs := (a.query env params).1 ++ (getLabeledResults a.dbHelper rows).1 ++
        [Event.rowsClose]
      match (getLabeledResults a.dbHelper rows).2 with
      | .panic => (evs, .panic)
      | .ret _ (some err) => (evs, .ret none (some err))
      | .ret results none => (evs, .ret (some (ResultSet.labeled results)) none)
    else
      let evs := (a.query env params).1 ++ (getResults a.dbHelper rows).1 ++
        [Event.rowsClose]
      match (getResults a.dbHelper rows).2 with
      | (_, some err) => (evs, .ret none (some err))
      | (results, none) => (evs, .ret (some (ResultSet.positional results)) none)

/-- Method `Eval`: the events and `(done, err)`. -/
def Activity.Eval (env : Env) (a : Activity) (ctx : Context) : List Event × Go Bool :=
  match ctx.GetInputObject with
  | .error err => ([], .ret false (some err))
  | .ok params =>
    match (a.doSelect env params).2 with
    | .panic => ((a.doSelect env params).1, .panic)
    | .ret _ (some err) => ((a.doSelect env params).1, .ret false (some err))
    | .ret results none =>
      let evs := (a.doSelect env params).1 ++ [Event.setOutput ovResults results]
      match ctx.SetOutput ovResults results with
      | some err => (evs, .ret false (some err))
      | none => (evs, .ret true none)

/-- A call of one of the methods of `*Activity`. -/
inductive Call
  | Metadata
  | Cleanup
  | Eval (ctx : Context)
  | doSelect (params : GoMap)

/-- The receiver after a method call, with the events of the call.  The
methods have pointer receivers, and none of them assigns to a field. -/
def Activity.call (env : Env) (a : Activity) : Call → Activity × List Event
  | .Metadata => (a, [])
  | .Cleanup => (a, (a.Cleanup env).1)
  | .Eval ctx => (a, (a.Eval env ctx).1)
  | .doSelect params => (a, (a.doSelect env params).1)

/-- The receiver after a sequence of method calls. -/
def Activity.run (env : Env) (a : Activity) : List Call → Activity
  | [] => a
  | c :: cs => Activity.run env (a.call env c).1 cs

/-- The pointer to a dynamic receiver holding `v`. -/
def dynSlot (v : Value) : Value := Value.slot SlotKind.dynamic v

/-- The map `getLabeledResults` builds for one row of dynamic receivers. -/
def labelRow (columns : List String) (current : List Value) : GoMap :=
  (fillMap columns (current.map dynSlot) []).getD []

/-- The events of `n` loop iterations that each produce `evs`. -/
def perRow (evs : List Event) : Nat → List Event
  | 0 => []
  | n + 1 => evs ++ perRow evs n

/-- Whether a value is a pointer to a scan target. -/
def Value.isSlot : Value → Bool
  | .slot _ _ => true
  | _ => false

/-- A helper whose scan targets are all `*interface{}`. -/
def helperDyn : DbHelper := { GetScanType := fun _ => SlotKind.dynamic }

/-- An integer column of the given name. -/
def colInt (n : String) : ColumnType := { name := n, databaseTypeName := "INT" }

/-- The cursor of the spec's example: columns `a, b, a`, one row `1, 2, 3`. -/
def rowsABA : Rows :=
  { metaErr := none
    columnTypes := [colInt "a", colInt "b", colInt "a"]
    data := [[Value.int 1, Value.int 2, Value.int 3]]
    iterErr := none
    convert := fun _ v => .ok v }

/-- The same cursor, whose iteration ends with an error after its row. -/
def rowsIterErr : Rows := { rowsABA with iterErr := some "boom" }

/-- Whether an event is the execution of a query. -/
def Event.isQuery : Event → Bool
  | .stmtQuery _ _ => true
  | .dbQuery _ _ => true
  | _ => false

/-- Whether an event is the closing of a connection. -/
def Event.isDbClose : Event → Bool
  | .dbClose _ => true
  | _ => false

/-- A compiled select statement with one placeholder. -/
def stmtSelect : SQLStatement :=
  { stmtType := StatementType.StSelect
    PreparedStatementSQL := "select id, name from users where dept = ?"
    GetPreparedStatementArgs := fun params => [(params.get "dept").getD Value.null]
    ToStatementSQL := fun _ => "select id, name from users where dept = 'eng'" }

/-- A compiled statement that is not a select. -/
def stmtUpdate : SQLStatement :=
  { stmtType := StatementType.StOther 0
    PreparedStatementSQL := "update users set x=1"
    GetPreparedStatementArgs := fun _ => []
    ToStatementSQL := fun _ => "update users set x=1" }

/-- A world in which every call succeeds, except that closing a prepared
statement fails; queries answer with the given cursor. -/
def envWith (rows : Rows) : Env :=
  { GetDbHelper := fun _ => .ok helperDyn
    NewSQLStatement := fun _ query =>
      if query = "update users set x=1" then .ok stmtUpdate else .ok stmtSelect
    sqlOpen := fun _ _ => none
    Prepare := fun _ _ => none
    stmtQuery := fun _ _ => .ok rows
    dbQuery := fun _ _ => .ok rows
    stmtClose := fun _ => some "statement close failed"
    dbClose := fun _ => none }

/-- Settings of a select activity, filled over the struct `New` hands in. -/
def ctxSelect : InitContext :=
  { MapToStruct := fun s => .ok { s with
      DbType := "mysql", DriverName := "mysql", DataSourceName := "dsn",
      Query := "select id, name from users where dept = :dept" } }

/-- Settings whose query is an update. -/
def ctxUpdate : InitContext :=
  { MapToStruct := fun s => .ok { s with
      DbType := "mysql", DriverName := "mysql", DataSourceName := "dsn",
      Query := "update users set x=1" } }

/-- The settings `ctxSelect` yields. -/
def settingsSelect : Settings :=
  { newSettings with
    DbType := "mysql", DriverName := "mysql", DataSourceName := "dsn",
    Query := "select id, name from users where dept = :dept" }

/-- The settings `ctxUpdate` yields. -/
def settingsUpdate : Settings :=
  { newSettings with
    DbType := "mysql", DriverName := "mysql", DataSourceName := "dsn",
    Query := "update users set x=1" }

/-- The activity `New` builds from `ctxSelect`. -/
def actSelect : Activity :=
  { dbHelper := helperDyn
    db := { driverName := "mysql", dataSourceName := "dsn" }
    sqlStatement := stmtSelect
    stmt := some { query := "select id, name from users where dept = ?" }
    labeledResults := false }

end sqlquery

namespace fnstring

/-- The values `Eval` can be handed as `interface{}`; `unconvertible` stands
for a value `coerce.ToString` refuses. -/
inductive Arg
  | str (s : String)
  | int (i : Int)
  | bool (b : Bool)
  | nil
  | unconvertible
  deriving DecidableEq, Repr

/-- The host's `coerce.ToString`. -/
def coerceToString : Arg → Option String
  | .str s => some s
  | .int i => some (toString i)
  | .bool b => some (if b then "true" else "false")
  | .nil => some ""
  | .unconvertible => none

/-- Go's `strings.TrimLeft`: `s` without its leading code points contained in
`cutset`. -/
def TrimLeft (s cutset : String) : String :=
  if s = "" ∨ cutset = "" then s
  else String.mk (s.data.dropWhile (fun c => decide (c ∈ cutset.data)))

/-- The outcome of `Eval`: a panic, an error naming the parameter it complains
about and printing a value, or the result string. -/
inductive EvalResult
  | panic
  | err (message : String) (shown : Arg)
  | ok (value : String)
  deriving DecidableEq, Repr

/-- Method `fnTrimLeft.Name`. -/
def fnTrimLeft.Name : String := "trimLeft"

/-- The data types of a signature. -/
inductive DataType
  | TypeString
  | TypeOther
  deriving DecidableEq, Repr

/-- Method `fnTrimLeft.Sig`. -/
def fnTrimLeft.Sig : List DataType × Bool :=
  ([DataType.TypeString, DataType.TypeString], false)

/-- Method `fnTrimLeft.Eval`.  Both coercions read `params[0]`; `params[1]` is
read only to print the second error. -/
def fnTrimLeft.Eval (params : List Arg) : EvalResult :=
  match params[0]? with
  | none => .panic
  | some p0 =>
    match coerceToString p0 with
    | none => .err "string.trimLeft function first parameter must be string" p0
    | some s1 =>
      match coerceToString p0 with
      | none =>
        match params[1]? with
        | none => .panic
        | some p1 => .err "string.trimLeft function second parameter must be string" p1
      | some s2 => .ok (TrimLeft s1 s2)

end fnstring

/-! ## Theorems about the SQL query activity -/

namespace sqlquery

theorem GoMap.get_set_self (m : GoMap) (k : String) (v : Value) :
    (m.set k v).get k = some v := by
  simp [GoMap.set, GoMap.get, List.lookup]

theorem GoMap.get_filter_ne (m : GoMap) (k n : String) (h : n ≠ k) :
    List.lookup n (m.filter (fun p => p.1 ≠ k)) = List.lookup n m := by
  induction m with
  | nil => rfl
  | cons p ps ih =>
    obtain ⟨a, b⟩ := p
    by_cases hak : a = k
    · subst hak
      have hna : (n == a) = false := by simpa using h
      simp only [ne_eq, decide_not] at ih
      simp [List.filter, List.lookup, hna, ih]
    · by_cases hna : n = a
      · subst hna
        simp [List.filter, hak, List.lookup]
      · have hna2 : (n == a) = false := by simpa using hna
        simp only [ne_eq, decide_not] at ih
        simp [List.filter, hak, List.lookup, hna2, ih]

theorem GoMap.get_set_ne (m : GoMap) (k n : String) (v : Value) (h : n ≠ k) :
    (m.set k v).get n = m.get n := by
  have hnk : (n == k) = false := by simpa using h
  simp [GoMap.set, GoMap.get, List.lookup, hnk]
  simpa using GoMap.get_filter_ne m k n h

theorem GoMap.mem_keys_set (m : GoMap) (k n : String) (v : Value) :
    n ∈ (m.set k v).keys ↔ n = k ∨ n ∈ m.keys := by
  simp only [GoMap.set, GoMap.keys, List.map_cons, List.mem_cons, List.mem_map, List.mem_filter]
  constructor
  · rintro (h | ⟨p, ⟨hp, _⟩, rfl⟩)
    · exact Or.inl h
    · exact Or.inr ⟨p, hp, rfl⟩
  · rintro (h | ⟨p, hp, rfl⟩)
    · exact Or.inl h
    · by_cases hk : p.1 = k
      · exact Or.inl hk
      · exact Or.inr ⟨p, ⟨hp, by simpa using hk⟩, rfl⟩

theorem GoMap.nodup_keys_set (m : GoMap) (k : String) (v : Value) (h : m.keys.Nodup) :
    (m.set k v).keys.Nodup := by
  simp only [GoMap.set, GoMap.keys, List.map_cons, List.nodup_cons]
  constructor
  · simp [List.mem_map, List.mem_filter]
  · have : (m.filter (fun p => p.1 ≠ k)).Sublist m := List.filter_sublist m
    exact (this.map Prod.fst).nodup h

theorem scanInto_dynamic (rows : Rows) :
    ∀ (dest current : List Value), dest.length = current.length →
      (∀ d ∈ dest, ∃ c, d = Value.slot SlotKind.dynamic c) →
      scanInto rows dest current = .ok (current.map dynSlot)
  | [], [], _, _ => rfl
  | [], _ :: _, h, _ => by simp at h
  | _ :: _, [], h, _ => by simp at h
  | d :: ds, s :: ss, h, hd => by
    obtain ⟨c, rfl⟩ := hd d (List.mem_cons_self _ _)
    have ih := scanInto_dynamic rows ds ss (by simpa using h)
      (fun x hx => hd x (List.mem_cons_of_mem _ hx))
    simp [scanInto, convertAssign, ih, dynSlot]

theorem Scan_dynamic (rows : Rows) (dest current : List Value)
    (h : dest.length = current.length)
    (hd : ∀ d ∈ dest, ∃ c, d = Value.slot SlotKind.dynamic c) :
    rows.Scan current dest = .ok (current.map dynSlot) := by
  simp [Rows.Scan, h, scanInto_dynamic rows dest current h hd]

theorem scanTargets_dynamic (dbHelper : DbHelper) (cts : List ColumnType)
    (h : ∀ ct ∈ cts, dbHelper.GetScanType ct = SlotKind.dynamic) :
    ∀ d ∈ scanTargets dbHelper cts, ∃ c, d = Value.slot SlotKind.dynamic c := by
  intro d hd
  simp only [scanTargets, List.mem_map] at hd
  obtain ⟨ct, hct, rfl⟩ := hd
  exact ⟨Value.null, by rw [h ct hct]⟩

theorem fillMap_dynamic_some :
    ∀ (columns : List String) (vals : List Value) (m : GoMap),
      columns.length = vals.length → ∃ m1, fillMap columns (vals.map dynSlot) m = some m1
  | [], _, m, _ => ⟨m, rfl⟩
  | _ :: _, [], _, h => by simp at h
  | c :: cs, v :: vs, m, h => by
    obtain ⟨m1, h1⟩ := fillMap_dynamic_some cs vs (m.set c v) (by simpa using h)
    exact ⟨m1, by simp [fillMap, dynSlot, derefDynamic, h1]⟩

theorem fillMap_keys :
    ∀ (columns : List String) (vals : List Value) (m m1 : GoMap),
      fillMap columns vals m = some m1 → ∀ n, n ∈ m1.keys ↔ n ∈ m.keys ∨ n ∈ columns
  | [], _, m, m1, h, n => by
    simp [fillMap] at h
    subst h
    simp
  | _ :: _, [], _, _, h, _ => by simp [fillMap] at h
  | c :: cs, v :: vs, m, m1, h, n => by
    simp only [fillMap] at h
    cases hv : derefDynamic v with
    | none => simp [hv] at h
    | some x =>
      simp only [hv] at h
      rw [fillMap_keys cs vs (m.set c x) m1 h n, GoMap.mem_keys_set]
      simp only [List.mem_cons]
      tauto

theorem fillMap_nodup :
    ∀ (columns : List String) (vals : List Value) (m m1 : GoMap),
      fillMap columns vals m = some m1 → m.keys.Nodup → m1.keys.Nodup
  | [], _, m, m1, h, hm => by
    simp [fillMap] at h
    subst h
    exact hm
  | _ :: _, [], _, _, h, _ => by simp [fillMap] at h
  | c :: cs, v :: vs, m, m1, h, hm => by
    simp only [fillMap] at h
    cases hv : derefDynamic v with
    | none => simp [hv] at h
    | some x =>
      simp only [hv] at h
      exact fillMap_nodup cs vs (m.set c x) m1 h (GoMap.nodup_keys_set m c x hm)

theorem fillMap_get_of_not_mem :
    ∀ (columns : List String) (vals : List Value) (m m1 : GoMap),
      fillMap columns vals m = some m1 → ∀ n, n ∉ columns → m1.get n = m.get n
  | [], _, m, m1, h, n, _ => by
    simp [fillMap] at h
    subst h
    rfl
  | _ :: _, [], _, _, h, _, _ => by simp [fillMap] at h
  | c :: cs, v :: vs, m, m1, h, n, hn => by
    simp only [fillMap] at h
    cases hv : derefDynamic v with
    | none => simp [hv] at h
    | some x =>
      simp only [hv] at h
      simp only [List.mem_cons, not_or] at hn
      rw [fillMap_get_of_not_mem cs vs (m.set c x) m1 h n hn.2, GoMap.get_set_ne m c n x hn.1]

theorem fillMap_get_last :
    ∀ (columns : List String) (vals : List Value) (m m1 : GoMap),
      fillMap columns vals m = some m1 →
      ∀ (i : Nat) (n : String) (v : Value), columns[i]? = some n → vals[i]? = some (dynSlot v) →
        (∀ j, i < j → columns[j]? ≠ some n) → m1.get n = some v
  | [], _, _, _, _, i, n, v, hc, _, _ => by simp at hc
  | _ :: _, [], _, _, h, _, _, _, _, _, _ => by simp [fillMap] at h
  | c :: cs, w :: vs, m, m1, h, i, n, v, hc, hv, hlast => by
    simp only [fillMap] at h
    cases hw : derefDynamic w with
    | none => simp [hw] at h
    | some x =>
      simp only [hw] at h
      cases i with
      | zero =>
        simp only [List.getElem?_cons_zero, Option.some.injEq] at hc hv
        subst hc
        subst hv
        simp only [dynSlot, derefDynamic, Option.some.injEq] at hw
        subst hw
        have hnot : c ∉ cs := by
          intro hmem
          obtain ⟨j, hj, hjc⟩ := List.getElem_of_mem hmem
          apply hlast (j + 1) (Nat.succ_pos j)
          simp [List.getElem?_eq_getElem hj, hjc]
        rw [fillMap_get_of_not_mem cs vs _ m1 h c hnot, GoMap.get_set_self]
      | succ k =>
        simp only [List.getElem?_cons_succ] at hc hv
        refine fillMap_get_last cs vs (m.set c x) m1 h k n v hc hv ?_
        intro j hj
        have := hlast (j + 1) (by omega)
        simpa using this

theorem getLabeledResultsLoop_dynamic (dbHelper : DbHelper) (rows : Rows)
    (cts : List ColumnType)
    (hdyn : ∀ ct ∈ cts, dbHelper.GetScanType ct = SlotKind.dynamic) :
    ∀ (data : List (List Value)) (results : List GoMap),
      (∀ r ∈ data, r.length = cts.length) →
      getLabeledResultsLoop dbHelper rows (cts.map ColumnType.name) cts data results =
        (perRow (scanTargetEvents cts ++ [Event.scan cts.length, Event.scan cts.length])
            data.length,
          Go.ret (results ++ data.map (labelRow (cts.map ColumnType.name))) rows.iterErr)
  | [], results, _ => by simp [getLabeledResultsLoop, perRow]
  | current :: rest, results, hlen => by
    have hcur : current.length = cts.length := hlen current (List.mem_cons_self _ _)
    have hs1 : rows.Scan current (scanTargets dbHelper cts) = .ok (current.map dynSlot) :=
      Scan_dynamic rows _ _ (by simp [scanTargets, hcur])
        (scanTargets_dynamic dbHelper cts hdyn)
    have hs2 : rows.Scan current (current.map dynSlot) = .ok (current.map dynSlot) :=
      Scan_dynamic rows _ _ (by simp) (by
        intro d hd
        simp only [List.mem_map] at hd
        obtain ⟨c, _, rfl⟩ := hd
        exact ⟨c, rfl⟩)
    obtain ⟨m1, hm1⟩ := fillMap_dynamic_some (cts.map ColumnType.name) current []
      (by simp [hcur])
    have ih := getLabeledResultsLoop_dynamic dbHelper rows cts hdyn rest (results ++ [m1])
      (fun r hr => hlen r (List.mem_cons_of_mem _ hr))
    have hrow : labelRow (cts.map ColumnType.name) current = m1 := by
      simp [labelRow, hm1]
    simp only [getLabeledResultsLoop, hs1, hs2, hm1, ih, List.length_cons, perRow,
      List.map_cons, hrow, List.length_map, hcur]
    simp [scanTargets]

theorem getResultsLoop_dynamic (dbHelper : DbHelper) (rows : Rows)
    (cts : List ColumnType)
    (hdyn : ∀ ct ∈ cts, dbHelper.GetScanType ct = SlotKind.dynamic) :
    ∀ (data : List (List Value)) (results : List (List Value)),
      (∀ r ∈ data, r.length = cts.length) →
      getResultsLoop dbHelper rows cts data results =
        (perRow (scanTargetEvents cts ++ [Event.scan cts.length]) data.length,
          (results ++ data.map (List.map dynSlot), rows.iterErr))
  | [], results, _ => by simp [getResultsLoop, perRow]
  | current :: rest, results, hlen => by
    have hcur : current.length = cts.length := hlen current (List.mem_cons_self _ _)
    have hs1 : rows.Scan current (scanTargets dbHelper cts) = .ok (current.map dynSlot) :=
      Scan_dynamic rows _ _ (by simp [scanTargets, hcur])
        (scanTargets_dynamic dbHelper cts hdyn)
    have ih := getResultsLoop_dynamic dbHelper rows cts hdyn rest
      (results ++ [current.map dynSlot])
      (fun r hr => hlen r (List.mem_cons_of_mem _ hr))
    simp only [getResultsLoop, hs1, ih, List.length_cons, perRow, List.map_cons]
    simp [scanTargets]

theorem convertAssign_isSlot (rows : Rows) (d s v : Value)
    (h : convertAssign rows d s = .ok v) : v.isSlot = true := by
  cases d with
  | slot k c =>
    cases k with
    | dynamic =>
      simp only [convertAssign, Except.ok.injEq] at h
      subst h
      rfl
    | typed n =>
      simp only [convertAssign] at h
      cases hc : rows.convert n s with
      | error e => simp [hc] at h
      | ok w =>
        simp only [hc, Except.ok.injEq] at h
        subst h
        rfl
  | null => simp [convertAssign] at h
  | int i => simp [convertAssign] at h
  | text t => simp [convertAssign] at h
  | bool b => simp [convertAssign] at h

theorem scanInto_isSlot (rows : Rows) :
    ∀ (dest current vs : List Value), scanInto rows dest current = .ok vs →
      ∀ v ∈ vs, v.isSlot = true
  | [], _, vs, h, v, hv => by
    simp only [scanInto, Except.ok.injEq] at h
    subst h
    simp at hv
  | _ :: _, [], _, h, _, _ => by simp [scanInto] at h
  | d :: ds, s :: ss, vs, h, v, hv => by
    simp only [scanInto] at h
    cases hc : convertAssign rows d s with
    | error e => simp [hc] at h
    | ok d1 =>
      simp only [hc] at h
      cases hr : scanInto rows ds ss with
      | error e => simp [hr] at h
      | ok ds1 =>
        simp only [hr, Except.ok.injEq] at h
        subst h
        rcases List.mem_cons.mp hv with rfl | hmem
        · exact convertAssign_isSlot rows d s _ hc
        · exact scanInto_isSlot rows ds ss ds1 hr v hmem

theorem Scan_isSlot (rows : Rows) (current dest vs : List Value)
    (h : rows.Scan current dest = .ok vs) : ∀ v ∈ vs, v.isSlot = true := by
  unfold Rows.Scan at h
  split at h
  · simp at h
  · exact scanInto_isSlot rows dest current vs h

theorem getResultsLoop_isSlot (dbHelper : DbHelper) (rows : Rows) (cts : List ColumnType) :
    ∀ (data results : List (List Value)),
      (∀ row ∈ results, ∀ v ∈ row, v.isSlot = true) →
      ∀ row ∈ (getResultsLoop dbHelper rows cts data results).2.1, ∀ v ∈ row, v.isSlot = true
  | [], results, hres => by simpa [getResultsLoop] using hres
  | current :: rest, results, hres => by
    simp only [getResultsLoop]
    cases hs : rows.Scan current (scanTargets dbHelper cts) with
    | error e => simp
    | ok vs =>
      simp only []
      apply getResultsLoop_isSlot dbHelper rows cts rest (results ++ [vs])
      intro row hrow
      rcases List.mem_append.mp hrow with h1 | h1
      · exact hres row h1
      · simp only [List.mem_singleton] at h1
        subst h1
        exact Scan_isSlot rows current _ _ hs

/-- Every element of every row `getResults` returns is a pointer to a scan
target; no row holds a scanned value itself. -/
theorem getResults_rows_are_scan_targets (dbHelper : DbHelper) (rows : Rows) :
    ∀ row ∈ (getResults dbHelper rows).2.1, ∀ v ∈ row, v.isSlot = true := by
  unfold getResults
  cases rows.ColumnTypes with
  | error e => simp
  | ok cts =>
    exact getResultsLoop_isSlot dbHelper rows cts rows.data [] (by simp)

theorem getResultsLoop_error (dbHelper : DbHelper) (rows : Rows) (cts : List ColumnType) :
    ∀ (data results res : List (List Value)) (e : GoError),
      (getResultsLoop dbHelper rows cts data results).2 = (res, some e) →
      res = [] ∨ (rows.iterErr = some e ∧ res.length = results.length + data.length)
  | [], results, res, e, h => by
    simp only [getResultsLoop, Prod.mk.injEq] at h
    exact Or.inr ⟨h.2, by simp [h.1]⟩
  | current :: rest, results, res, e, h => by
    simp only [getResultsLoop] at h
    cases hs : rows.Scan current (scanTargets dbHelper cts) with
    | error e1 =>
      simp only [hs, Prod.mk.injEq] at h
      exact Or.inl h.1.symm
    | ok vs =>
      simp only [hs] at h
      rcases getResultsLoop_error dbHelper rows cts rest (results ++ [vs]) res e h with h1 | h1
      · exact Or.inl h1
      · refine Or.inr ⟨h1.1, ?_⟩
        rw [h1.2]
        simp
        omega

theorem getLabeledResultsLoop_error (dbHelper : DbHelper) (rows : Rows)
    (columns : List String) (cts : List ColumnType) :
    ∀ (data : List (List Value)) (results res : List GoMap) (e : GoError),
      (getLabeledResultsLoop dbHelper rows columns cts data results).2 = Go.ret res (some e) →
      res = [] ∨ (rows.iterErr = some e ∧ res.length = results.length + data.length)
  | [], results, res, e, h => by
    simp only [getLabeledResultsLoop, Go.ret.injEq] at h
    exact Or.inr ⟨h.2, by simp [h.1]⟩
  | current :: rest, results, res, e, h => by
    simp only [getLabeledResultsLoop] at h
    cases hs : rows.Scan current (scanTargets dbHelper cts) with
    | error e1 =>
      simp only [hs, Go.ret.injEq] at h
      exact Or.inl h.1.symm
    | ok vs =>
      simp only [hs] at h
      cases hs2 : rows.Scan current vs with
      | error e2 =>
        simp only [hs2, Go.ret.injEq] at h
        exact Or.inl h.1.symm
      | ok vs2 =>
        simp only [hs2] at h
        cases hf : fillMap columns vs2 [] with
        | none => simp [hf] at h
        | some m =>
          simp only [hf] at h
          rcases getLabeledResultsLoop_error dbHelper rows columns cts rest (results ++ [m])
            res e h with h1 | h1
          · exact Or.inl h1
          · refine Or.inr ⟨h1.1, ?_⟩
            rw [h1.2]
            simp
            omega

theorem labelRow_spec (columns : List String) (current : List Value)
    (hlen : current.length = columns.length) :
    (∀ n, n ∈ (labelRow columns current).keys ↔ n ∈ columns) ∧
    (labelRow columns current).keys.Nodup ∧
    ∀ (i : Nat) (n : String) (v : Value), columns[i]? = some n → current[i]? = some v →
      (∀ j, i < j → columns[j]? ≠ some n) → (labelRow columns current).get n = some v := by
  obtain ⟨m1, hm1⟩ := fillMap_dynamic_some columns current [] hlen.symm
  have hrow : labelRow columns current = m1 := by simp [labelRow, hm1]
  rw [hrow]
  refine ⟨?_, ?_, ?_⟩
  · intro n
    rw [fillMap_keys _ _ _ _ hm1 n]
    simp [GoMap.keys]
  · exact fillMap_nodup _ _ _ _ hm1 (by simp [GoMap.keys])
  · intro i n v hc hv hlast
    exact fillMap_get_last _ _ _ _ hm1 i n v hc (by simp [List.getElem?_map, hv]) hlast

/-- C2. With dynamic scan targets and rows of the cursor's width, `getLabeledResults`
returns one map per row, in order, with the cursor's iteration error; the keys
of each map are exactly the column names, without repetition, and each name is
mapped to the value of the last column carrying it. -/
theorem getLabeledResults_last_column_wins (dbHelper : DbHelper) (rows : Rows)
    (hmeta : rows.metaErr = none)
    (hdyn : ∀ ct ∈ rows.columnTypes, dbHelper.GetScanType ct = SlotKind.dynamic)
    (hrows : ∀ r ∈ rows.data, r.length = rows.columnTypes.length) :
    ∃ results : List GoMap,
      (getLabeledResults dbHelper rows).2 = Go.ret results rows.iterErr ∧
      results.length = rows.data.length ∧
      ∀ (r : Nat) (resMap : GoMap) (current : List Value),
        results[r]? = some resMap → rows.data[r]? = some current →
        (∀ n, n ∈ resMap.keys ↔ n ∈ rows.columnTypes.map ColumnType.name) ∧
        resMap.keys.Nodup ∧
        ∀ (i : Nat) (n : String) (v : Value),
          (rows.columnTypes.map ColumnType.name)[i]? = some n → current[i]? = some v →
          (∀ j, i < j → (rows.columnTypes.map ColumnType.name)[j]? ≠ some n) →
          resMap.get n = some v := by
  refine ⟨rows.data.map (labelRow (rows.columnTypes.map ColumnType.name)), ?_, by simp, ?_⟩
  · simp [getLabeledResults, Rows.Columns, Rows.ColumnTypes, hmeta,
      getLabeledResultsLoop_dynamic dbHelper rows rows.columnTypes hdyn rows.data [] hrows]
  · intro r resMap current hres hcur
    rw [List.getElem?_map, hcur] at hres
    simp only [Option.map_some', Option.some.injEq] at hres
    subst hres
    have hmem : current ∈ rows.data := List.getElem?_mem hcur
    exact labelRow_spec _ current (by simp [hrows current hmem])

/-- The statement about labeled rows holds of the spec's example cursor. -/
theorem getLabeledResults_last_column_wins_witness :
    rowsABA.metaErr = none ∧
    (∀ ct ∈ rowsABA.columnTypes, helperDyn.GetScanType ct = SlotKind.dynamic) ∧
    (∀ r ∈ rowsABA.data, r.length = rowsABA.columnTypes.length) ∧
    ∃ results : List GoMap,
      (getLabeledResults helperDyn rowsABA).2 = Go.ret results rowsABA.iterErr ∧
      results.length = rowsABA.data.length ∧
      ∀ (r : Nat) (resMap : GoMap) (current : List Value),
        results[r]? = some resMap → rowsABA.data[r]? = some current →
        (∀ n, n ∈ resMap.keys ↔ n ∈ rowsABA.columnTypes.map ColumnType.name) ∧
        resMap.keys.Nodup ∧
        ∀ (i : Nat) (n : String) (v : Value),
          (rowsABA.columnTypes.map ColumnType.name)[i]? = some n → current[i]? = some v →
          (∀ j, i < j → (rowsABA.columnTypes.map ColumnType.name)[j]? ≠ some n) →
          resMap.get n = some v :=
  ⟨rfl, fun _ _ => rfl, by decide,
    getLabeledResults_last_column_wins helperDyn rowsABA rfl (fun _ _ => rfl) (by decide)⟩

/-- The spec's example: columns `a, b, a` with values `1, 2, 3` give the
labeled row with `a` mapped to 3 and `b` mapped to 2. -/
theorem getLabeledResults_example :
    (getLabeledResults helperDyn rowsABA).2 =
      Go.ret [[("a", Value.int 3), ("b", Value.int 2)]] none := by
  decide

/-- C1. On the spec's example (columns `a, b, a`, values `1, 2, 3`) the
row `getResults` returns is made of the three scan targets, pointers whose
pointees hold 1, 2 and 3; it is not the row of the values 1, 2, 3. -/
theorem getResults_example_returns_targets :
    (getResults helperDyn rowsABA).2 =
      ([[Value.slot SlotKind.dynamic (Value.int 1), Value.slot SlotKind.dynamic (Value.int 2),
          Value.slot SlotKind.dynamic (Value.int 3)]], none) ∧
    (getResults helperDyn rowsABA).2.1 ≠ [[Value.int 1, Value.int 2, Value.int 3]] := by
  decide

/-- C9. On a cursor of one row, `getLabeledResults` calls `GetScanType` once
per column and then `Scan` twice, where `getResults` calls `Scan` once. -/
theorem getLabeledResults_example_scans_twice :
    rowsABA.data.length = 1 ∧
    (getLabeledResults helperDyn rowsABA).1 =
      [Event.getScanType (colInt "a"), Event.getScanType (colInt "b"),
        Event.getScanType (colInt "a"), Event.scan 3, Event.scan 3] ∧
    (getResults helperDyn rowsABA).1 =
      [Event.getScanType (colInt "a"), Event.getScanType (colInt "b"),
        Event.getScanType (colInt "a"), Event.scan 3] := by
  decide

/-- With dynamic scan targets and `n` rows of the cursor's width,
`getResults` issues `n` scans and `getLabeledResults` issues `2 * n`. -/
theorem scan_counts (dbHelper : DbHelper) (rows : Rows)
    (hmeta : rows.metaErr = none)
    (hdyn : ∀ ct ∈ rows.columnTypes, dbHelper.GetScanType ct = SlotKind.dynamic)
    (hrows : ∀ r ∈ rows.data, r.length = rows.columnTypes.length) :
    (getResults dbHelper rows).1.count (Event.scan rows.columnTypes.length)
      = rows.data.length ∧
    (getLabeledResults dbHelper rows).1.count (Event.scan rows.columnTypes.length)
      = 2 * rows.data.length := by
  have hcount : ∀ (evs : List Event) (e : Event) (n : Nat),
      (perRow evs n).count e = n * evs.count e := by
    intro evs e n
    induction n with
    | zero => simp [perRow]
    | succ k ih => simp [perRow, List.count_append, ih]; ring
  have hts : (scanTargetEvents rows.columnTypes).count (Event.scan rows.columnTypes.length) = 0 := by
    apply List.count_eq_zero.mpr
    simp [scanTargetEvents]
  constructor
  · simp [getResults, Rows.ColumnTypes, hmeta,
      getResultsLoop_dynamic dbHelper rows rows.columnTypes hdyn rows.data [] hrows, hcount,
      List.count_append, hts]
  · simp [getLabeledResults, Rows.Columns, Rows.ColumnTypes, hmeta,
      getLabeledResultsLoop_dynamic dbHelper rows rows.columnTypes hdyn rows.data [] hrows,
      hcount, List.count_append, hts]
    ring

/-- C3, as stated, fails: when the cursor reports an iteration error after a
row, both functions return that error together with the row already built. -/
theorem materialize_returns_rows_with_iteration_error :
    (getResults helperDyn rowsIterErr).2 =
      ([[Value.slot SlotKind.dynamic (Value.int 1), Value.slot SlotKind.dynamic (Value.int 2),
          Value.slot SlotKind.dynamic (Value.int 3)]], some "boom") ∧
    (getLabeledResults helperDyn rowsIterErr).2 =
      Go.ret [[("a", Value.int 3), ("b", Value.int 2)]] (some "boom") := by
  decide

theorem getResults_error (dbHelper : DbHelper) (rows : Rows) (res : List (List Value))
    (e : GoError) (h : (getResults dbHelper rows).2 = (res, some e)) :
    res = [] ∨ (rows.iterErr = some e ∧ res.length = rows.data.length) := by
  unfold getResults at h
  cases hc : rows.ColumnTypes with
  | error e1 =>
    simp only [hc, Prod.mk.injEq] at h
    exact Or.inl h.1.symm
  | ok cts =>
    simp only [hc] at h
    simpa using getResultsLoop_error dbHelper rows cts rows.data [] res e h

theorem getLabeledResults_error (dbHelper : DbHelper) (rows : Rows) (res : List GoMap)
    (e : GoError) (h : (getLabeledResults dbHelper rows).2 = Go.ret res (some e)) :
    res = [] ∨ (rows.iterErr = some e ∧ res.length = rows.data.length) := by
  unfold getLabeledResults at h
  cases hc : rows.Columns with
  | error e1 =>
    simp only [hc, Go.ret.injEq] at h
    exact Or.inl h.1.symm
  | ok columns =>
    simp only [hc] at h
    cases hct : rows.ColumnTypes with
    | error e1 =>
      simp only [hct, Go.ret.injEq] at h
      exact Or.inl h.1.symm
    | ok cts =>
      simp only [hct] at h
      simpa using getLabeledResultsLoop_error dbHelper rows columns cts rows.data [] res e h

theorem doSelect_error (env : Env) (a : Activity) (params : GoMap) (r : Option ResultSet)
    (e : GoError) (h : (a.doSelect env params).2 = Go.ret r (some e)) : r = none := by
  unfold Activity.doSelect at h
  cases hq : (a.query env params).2 with
  | error e1 =>
    simp only [hq, Go.ret.injEq] at h
    exact h.1.symm
  | ok rows =>
    simp only [hq] at h
    cases hl : a.labeledResults with
    | true =>
      simp only [hl, if_true] at h
      cases hg : (getLabeledResults a.dbHelper rows).2 with
      | panic => simp [hg] at h
      | ret res err =>
        cases err with
        | none => simp [hg] at h
        | some e1 =>
          simp only [hg, Go.ret.injEq] at h
          exact h.1.symm
    | false =>
      simp only [hl, Bool.false_eq_true, if_false] at h
      rcases hg : (getResults a.dbHelper rows).2 with ⟨res, err⟩
      cases err with
      | none => simp [hg] at h
      | some e1 =>
        simp only [hg, Go.ret.injEq] at h
        simpa using h.1.symm

theorem getResultsLoop_all_scanned (dbHelper : DbHelper) (rows : Rows)
    (cts : List ColumnType) :
    ∀ (data scanned : List (List Value)),
      List.Forall₂ (fun r vs => rows.Scan r (scanTargets dbHelper cts) = .ok vs) data scanned →
      ∀ results : List (List Value),
        (getResultsLoop dbHelper rows cts data results).2 = (results ++ scanned, rows.iterErr) := by
  intro data scanned hf
  induction hf with
  | nil => intro results; simp [getResultsLoop]
  | cons hr _ ih =>
    intro results
    simp only [getResultsLoop, hr]
    rw [ih]
    simp

theorem getResultsLoop_scan_error (dbHelper : DbHelper) (rows : Rows)
    (cts : List ColumnType) (cur : List Value) (post : List (List Value)) (e : GoError)
    (hcur : rows.Scan cur (scanTargets dbHelper cts) = .error e) :
    ∀ (pre results : List (List Value)),
      (∀ r ∈ pre, ∃ vs, rows.Scan r (scanTargets dbHelper cts) = .ok vs) →
      (getResultsLoop dbHelper rows cts (pre ++ cur :: post) results).2 = ([], some e)
  | [], results, _ => by simp [getResultsLoop, hcur]
  | r :: pre, results, hpre => by
    obtain ⟨vs, hvs⟩ := hpre r (List.mem_cons_self _ _)
    simp only [List.cons_append, getResultsLoop, hvs]
    exact getResultsLoop_scan_error dbHelper rows cts cur post e hcur pre _
      (fun x hx => hpre x (List.mem_cons_of_mem _ hx))

theorem getLabeledResultsLoop_all_scanned (dbHelper : DbHelper) (rows : Rows)
    (columns : List String) (cts : List ColumnType) :
    ∀ (data : List (List Value)) (maps : List GoMap),
      List.Forall₂ (fun r m => ∃ vs1 vs2, rows.Scan r (scanTargets dbHelper cts) = .ok vs1 ∧
        rows.Scan r vs1 = .ok vs2 ∧ fillMap columns vs2 [] = some m) data maps →
      ∀ results : List GoMap,
        (getLabeledResultsLoop dbHelper rows columns cts data results).2 =
          Go.ret (results ++ maps) rows.iterErr := by
  intro data maps hf
  induction hf with
  | nil => intro results; simp [getLabeledResultsLoop]
  | cons hr _ ih =>
    intro results
    obtain ⟨vs1, vs2, h1, h2, h3⟩ := hr
    simp only [getLabeledResultsLoop, h1, h2, h3]
    rw [ih]
    simp

theorem getLabeledResultsLoop_scan_error (dbHelper : DbHelper) (rows : Rows)
    (columns : List String) (cts : List ColumnType) (cur : List Value)
    (post : List (List Value)) (e : GoError)
    (hcur : rows.Scan cur (scanTargets dbHelper cts) = .error e ∨
      ∃ vs1, rows.Scan cur (scanTargets dbHelper cts) = .ok vs1 ∧
        rows.Scan cur vs1 = .error e) :
    ∀ (pre : List (List Value)) (results : List GoMap),
      (∀ r ∈ pre, ∃ vs1 vs2 m, rows.Scan r (scanTargets dbHelper cts) = .ok vs1 ∧
        rows.Scan r vs1 = .ok vs2 ∧ fillMap columns vs2 [] = some m) →
      (getLabeledResultsLoop dbHelper rows columns cts (pre ++ cur :: post) results).2 =
        Go.ret [] (some e)
  | [], results, _ => by
    rcases hcur with h | ⟨vs1, h1, h2⟩
    · simp [getLabeledResultsLoop, h]
    · simp [getLabeledResultsLoop, h1, h2]
  | r :: pre, results, hpre => by
    obtain ⟨vs1, vs2, m, h1, h2, h3⟩ := hpre r (List.mem_cons_self _ _)
    simp only [List.cons_append, getLabeledResultsLoop, h1, h2, h3]
    exact getLabeledResultsLoop_scan_error dbHelper rows columns cts cur post e hcur pre _
      (fun x hx => hpre x (List.mem_cons_of_mem _ hx))

theorem doSelect_drops_rows (env : Env) (a : Activity) (params : GoMap) (rs : Rows)
    (hq : (a.query env params).2 = .ok rs) :
    (a.labeledResults = false → ∀ (res : List (List Value)) (e : GoError),
      (getResults a.dbHelper rs).2 = (res, some e) →
      (a.doSelect env params).2 = Go.ret none (some e)) ∧
    (a.labeledResults = true → ∀ (res : List GoMap) (e : GoError),
      (getLabeledResults a.dbHelper rs).2 = Go.ret res (some e) →
      (a.doSelect env params).2 = Go.ret none (some e)) := by
  constructor
  · intro hl res e hg
    unfold Activity.doSelect
    simp [hq, hl, hg]
  · intro hl res e hg
    unfold Activity.doSelect
    simp [hq, hl, hg]

/-- C3, amended. After an error from the column metadata or from a scan,
`getResults` and `getLabeledResults` return a nil result with that error.  When
every row scans, they return the rows built from every row of the cursor
together with `rows.Err()`, so a cursor-iteration error comes with the rows
built so far; rows are returned next to an error in that case only.  `doSelect`
drops them: it returns the helper's error with a nil result, and whenever it
returns an error its result is nil. -/
theorem errors_discard_results (dbHelper : DbHelper) (rows : Rows) (env : Env)
    (a : Activity) (params : GoMap) :
    (∀ e : GoError, rows.metaErr = some e →
      (getResults dbHelper rows).2 = ([], some e) ∧
      (getLabeledResults dbHelper rows).2 = Go.ret [] (some e)) ∧
    (∀ (pre : List (List Value)) (cur : List Value) (post : List (List Value)) (e : GoError),
      rows.metaErr = none → rows.data = pre ++ cur :: post →
      (∀ r ∈ pre, ∃ vs, rows.Scan r (scanTargets dbHelper rows.columnTypes) = .ok vs) →
      rows.Scan cur (scanTargets dbHelper rows.columnTypes) = .error e →
      (getResults dbHelper rows).2 = ([], some e)) ∧
    (∀ scanned : List (List Value),
      rows.metaErr = none →
      List.Forall₂ (fun r vs => rows.Scan r (scanTargets dbHelper rows.columnTypes) = .ok vs)
        rows.data scanned →
      (getResults dbHelper rows).2 = (scanned, rows.iterErr)) ∧
    (∀ (pre : List (List Value)) (cur : List Value) (post : List (List Value)) (e : GoError),
      rows.metaErr = none → rows.data = pre ++ cur :: post →
      (∀ r ∈ pre, ∃ vs1 vs2 m,
        rows.Scan r (scanTargets dbHelper rows.columnTypes) = .ok vs1 ∧
        rows.Scan r vs1 = .ok vs2 ∧
        fillMap (rows.columnTypes.map ColumnType.name) vs2 [] = some m) →
      (rows.Scan cur (scanTargets dbHelper rows.columnTypes) = .error e ∨
        ∃ vs1, rows.Scan cur (scanTargets dbHelper rows.columnTypes) = .ok vs1 ∧
          rows.Scan cur vs1 = .error e) →
      (getLabeledResults dbHelper rows).2 = Go.ret [] (some e)) ∧
    (∀ maps : List GoMap,
      rows.metaErr = none →
      List.Forall₂ (fun r m => ∃ vs1 vs2,
        rows.Scan r (scanTargets dbHelper rows.columnTypes) = .ok vs1 ∧
        rows.Scan r vs1 = .ok vs2 ∧
        fillMap (rows.columnTypes.map ColumnType.name) vs2 [] = some m) rows.data maps →
      (getLabeledResults dbHelper rows).2 = Go.ret maps rows.iterErr) ∧
    (∀ (res : List (List Value)) (e : GoError),
      (getResults dbHelper rows).2 = (res, some e) →
      res = [] ∨ (rows.iterErr = some e ∧ res.length = rows.data.length)) ∧
    (∀ (res : List GoMap) (e : GoError),
      (getLabeledResults dbHelper rows).2 = Go.ret res (some e) →
      res = [] ∨ (rows.iterErr = some e ∧ res.length = rows.data.length)) ∧
    (a.labeledResults = false → (a.query env params).2 = .ok rows →
      ∀ (res : List (List Value)) (e : GoError),
        (getResults a.dbHelper rows).2 = (res, some e) →
        (a.doSelect env params).2 = Go.ret none (some e)) ∧
    (a.labeledResults = true → (a.query env params).2 = .ok rows →
      ∀ (res : List GoMap) (e : GoError),
        (getLabeledResults a.dbHelper rows).2 = Go.ret res (some e) →
        (a.doSelect env params).2 = Go.ret none (some e)) ∧
    (∀ (r : Option ResultSet) (e : GoError),
      (a.doSelect env params).2 = Go.ret r (some e) → r = none) := by
  refine ⟨?_, ?_, ?_, ?_, ?_, getResults_error dbHelper rows,
    getLabeledResults_error dbHelper rows, ?_, ?_, doSelect_error env a params⟩
  · intro e he
    simp [getResults, getLabeledResults, Rows.Columns, Rows.ColumnTypes, he]
  · intro pre cur post e hm hd hpre hcur
    simp only [getResults, Rows.ColumnTypes, hm, hd]
    exact getResultsLoop_scan_error dbHelper rows _ cur post e hcur pre [] hpre
  · intro scanned hm hf
    simp only [getResults, Rows.ColumnTypes, hm]
    simpa using getResultsLoop_all_scanned dbHelper rows _ _ _ hf []
  · intro pre cur post e hm hd hpre hcur
    simp only [getLabeledResults, Rows.Columns, Rows.ColumnTypes, hm, hd]
    exact getLabeledResultsLoop_scan_error dbHelper rows _ _ cur post e hcur pre [] hpre
  · intro maps hm hf
    simp only [getLabeledResults, Rows.Columns, Rows.ColumnTypes, hm]
    simpa using getLabeledResultsLoop_all_scanned dbHelper rows _ _ _ _ hf []
  · intro hl hq
    exact (doSelect_drops_rows env a params rows hq).1 hl
  · intro hl hq
    exact (doSelect_drops_rows env a params rows hq).2 hl

/-- On a cursor that fails after its one row, `getResults` returns the row
built from it with the iteration error, and `doSelect` returns that error with
a nil result. -/
theorem errors_discard_results_witness :
    rowsIterErr.metaErr = none ∧
    List.Forall₂
      (fun r vs => rowsIterErr.Scan r (scanTargets helperDyn rowsIterErr.columnTypes) = .ok vs)
      rowsIterErr.data
      [[Value.slot SlotKind.dynamic (Value.int 1), Value.slot SlotKind.dynamic (Value.int 2),
        Value.slot SlotKind.dynamic (Value.int 3)]] ∧
    (getResults helperDyn rowsIterErr).2 =
      ([[Value.slot SlotKind.dynamic (Value.int 1), Value.slot SlotKind.dynamic (Value.int 2),
          Value.slot SlotKind.dynamic (Value.int 3)]], some "boom") ∧
    actSelect.labeledResults = false ∧
    (actSelect.query (envWith rowsIterErr) [("dept", Value.text "eng")]).2 = .ok rowsIterErr ∧
    (actSelect.doSelect (envWith rowsIterErr) [("dept", Value.text "eng")]).2 =
      Go.ret none (some "boom") := by
  have h := errors_discard_results helperDyn rowsIterErr (envWith rowsIterErr) actSelect
    [("dept", Value.text "eng")]
  have hf : List.Forall₂
      (fun r vs => rowsIterErr.Scan r (scanTargets helperDyn rowsIterErr.columnTypes) = .ok vs)
      rowsIterErr.data
      [[Value.slot SlotKind.dynamic (Value.int 1), Value.slot SlotKind.dynamic (Value.int 2),
        Value.slot SlotKind.dynamic (Value.int 3)]] :=
    List.Forall₂.cons rfl List.Forall₂.nil
  have h3 := h.2.2.1 _ rfl hf
  exact ⟨rfl, hf, h3, rfl, rfl, h.2.2.2.2.2.2.2.1 rfl rfl _ "boom" h3⟩

theorem getConnection_ok_of_open (env : Env) (s : Settings)
    (ho : env.sqlOpen s.DriverName s.DataSourceName = none) :
    (getConnection env s).2 =
      .ok { driverName := s.DriverName, dataSourceName := s.DataSourceName } := by
  simp [getConnection, ho]

theorem getConnection_no_prepare (env : Env) (s : Settings) (q : String) :
    Event.prepare q ∉ (getConnection env s).1 := by
  unfold getConnection
  cases env.sqlOpen s.DriverName s.DataSourceName with
  | some err => simp
  | none =>
    by_cases h1 : s.MaxOpenConns > 0 <;> by_cases h2 : s.MaxIdleConns = 2 <;> simp [h1, h2]

theorem New_error_nil_activity (env : Env) (ctx : InitContext)
    (h : (New env ctx).2.2 ≠ none) : (New env ctx).2.1 = none := by
  unfold New at h ⊢
  cases hs : ctx.MapToStruct newSettings with
  | error e => rfl
  | ok s =>
    simp only [hs] at h ⊢
    cases hh : env.GetDbHelper s.DbType with
    | error e => rfl
    | ok dbHelper =>
      simp only [hh] at h ⊢
      cases hc : (getConnection env s).2 with
      | error e => rfl
      | ok db =>
        simp only [hc] at h ⊢
        cases hq : env.NewSQLStatement dbHelper s.Query with
        | error e => rfl
        | ok st =>
          simp only [hq] at h ⊢
          by_cases hk : st.stmtType = StatementType.StSelect
          · by_cases hd : s.DisablePrepared = true
            · simp [hk, hd] at h
            · cases hp : env.Prepare db st.PreparedStatementSQL with
              | none => simp [hk, hd, hp] at h
              | some e => simp [hk, hd, hp]
          · simp [hk]

/-- C4. When the settings load, the helper is found, the connection opens and
the statement compiles to a kind other than select, `New` returns the error
"only select statement is supported" and a nil activity, and prepares no
statement; and whenever `New` returns an error its activity is nil. -/
theorem New_rejects_non_select (env : Env) (ctx : InitContext) (s : Settings)
    (dbHelper : DbHelper) (sqlStatement : SQLStatement)
    (hs : ctx.MapToStruct newSettings = .ok s)
    (hh : env.GetDbHelper s.DbType = .ok dbHelper)
    (ho : env.sqlOpen s.DriverName s.DataSourceName = none)
    (hc : env.NewSQLStatement dbHelper s.Query = .ok sqlStatement)
    (hk : sqlStatement.stmtType ≠ StatementType.StSelect) :
    (New env ctx).2.2 = some "only select statement is supported" ∧
    (New env ctx).2.1 = none ∧
    (∀ q, Event.prepare q ∉ (New env ctx).1) ∧
    (∀ (env1 : Env) (ctx1 : InitContext),
      (New env1 ctx1).2.2 ≠ none → (New env1 ctx1).2.1 = none) := by
  have hnew : New env ctx =
      ((getConnection env s).1, (none, some "only select statement is supported")) := by
    simp [New, hs, hh, getConnection_ok_of_open env s ho, hc, hk]
  refine ⟨by rw [hnew], by rw [hnew], ?_, New_error_nil_activity⟩
  intro q
  rw [hnew]
  exact getConnection_no_prepare env s q

/-- An update statement is rejected by `New` in a world where every call
succeeds. -/
theorem New_rejects_non_select_witness :
    ctxUpdate.MapToStruct newSettings = .ok settingsUpdate ∧
    stmtUpdate.stmtType ≠ StatementType.StSelect ∧
    (New (envWith rowsABA) ctxUpdate).2.2 = some "only select statement is supported" ∧
    (New (envWith rowsABA) ctxUpdate).2.1 = none ∧
    (∀ q, Event.prepare q ∉ (New (envWith rowsABA) ctxUpdate).1) ∧
    (∀ (env1 : Env) (ctx1 : InitContext),
      (New env1 ctx1).2.2 ≠ none → (New env1 ctx1).2.1 = none) :=
  ⟨rfl, by decide,
    New_rejects_non_select (envWith rowsABA) ctxUpdate settingsUpdate helperDyn stmtUpdate
      rfl rfl rfl rfl (by decide)⟩

/-- C5. `Cleanup` closes the prepared statement, when there is one, and then
the connection; the connection is closed exactly once, and the error returned
is the one of closing the connection, whatever closing the statement answered. -/
theorem Cleanup_closes_statement_then_connection (env : Env) (a : Activity) :
    (a.Cleanup env).1 = (a.stmt.map Event.stmtClose).toList ++ [Event.dbClose a.db] ∧
    ((a.Cleanup env).1.filter Event.isDbClose).length = 1 ∧
    (a.Cleanup env).2 = env.dbClose a.db ∧
    (∀ (answer : Stmt → Option GoError),
      a.Cleanup { env with stmtClose := answer } = a.Cleanup env) := by
  cases hst : a.stmt with
  | none => simp [Activity.Cleanup, hst, List.filter, Event.isDbClose]
  | some st => simp [Activity.Cleanup, hst, List.filter, Event.isDbClose]

theorem New_some (env : Env) (ctx : InitContext) (act : Activity)
    (h : (New env ctx).2.1 = some act) :
    ∃ s, ctx.MapToStruct newSettings = .ok s ∧ act.labeledResults = false ∧
      act.stmt.isSome = !s.DisablePrepared := by
  unfold New at h
  cases hs : ctx.MapToStruct newSettings with
  | error e => simp [hs] at h
  | ok s =>
    refine ⟨s, rfl, ?_⟩
    simp only [hs] at h
    cases hh : env.GetDbHelper s.DbType with
    | error e => simp [hh] at h
    | ok dbHelper =>
      simp only [hh] at h
      cases hc : (getConnection env s).2 with
      | error e => simp [hc] at h
      | ok db =>
        simp only [hc] at h
        cases hq : env.NewSQLStatement dbHelper s.Query with
        | error e => simp [hq] at h
        | ok st =>
          simp only [hq] at h
          by_cases hk : st.stmtType = StatementType.StSelect
          · cases hd : s.DisablePrepared with
            | true =>
              simp [hk, hd] at h
              subst h
              simp
            | false =>
              cases hp : env.Prepare db st.PreparedStatementSQL with
              | none =>
                simp [hk, hd, hp] at h
                subst h
                simp
              | some e => simp [hk, hd, hp] at h
          · simp [hk] at h

theorem getResultsLoop_no_query (dbHelper : DbHelper) (rows : Rows) (cts : List ColumnType) :
    ∀ (data results : List (List Value)),
      (getResultsLoop dbHelper rows cts data results).1.filter Event.isQuery = []
  | [], _ => by simp [getResultsLoop]
  | current :: rest, results => by
    simp only [getResultsLoop]
    have hts : (scanTargetEvents cts).filter Event.isQuery = [] := by
      simp [scanTargetEvents, List.filter_eq_nil_iff, Event.isQuery]
    cases hs : rows.Scan current (scanTargets dbHelper cts) with
    | error e => simp [List.filter_append, hts, List.filter, Event.isQuery]
    | ok vs =>
      simp [List.filter_append, hts, List.filter, Event.isQuery,
        getResultsLoop_no_query dbHelper rows cts rest (results ++ [vs])]

theorem getLabeledResultsLoop_no_query (dbHelper : DbHelper) (rows : Rows)
    (columns : List String) (cts : List ColumnType) :
    ∀ (data : List (List Value)) (results : List GoMap),
      (getLabeledResultsLoop dbHelper rows columns cts data results).1.filter Event.isQuery = []
  | [], _ => by simp [getLabeledResultsLoop]
  | current :: rest, results => by
    simp only [getLabeledResultsLoop]
    have hts : (scanTargetEvents cts).filter Event.isQuery = [] := by
      simp [scanTargetEvents, List.filter_eq_nil_iff, Event.isQuery]
    cases hs : rows.Scan current (scanTargets dbHelper cts) with
    | error e => simp [List.filter_append, hts, List.filter, Event.isQuery]
    | ok vs =>
      simp only []
      cases hs2 : rows.Scan current vs with
      | error e => simp [List.filter_append, hts, List.filter, Event.isQuery]
      | ok vs2 =>
        simp only []
        cases hf : fillMap columns vs2 [] with
        | none => simp [List.filter_append, hts, List.filter, Event.isQuery]
        | some m =>
          simp [List.filter_append, hts, List.filter, Event.isQuery,
            getLabeledResultsLoop_no_query dbHelper rows columns cts rest (results ++ [m])]

theorem getResults_no_query (dbHelper : DbHelper) (rows : Rows) :
    (getResults dbHelper rows).1.filter Event.isQuery = [] := by
  unfold getResults
  cases rows.ColumnTypes with
  | error e => simp
  | ok cts => exact getResultsLoop_no_query dbHelper rows cts rows.data []

theorem getLabeledResults_no_query (dbHelper : DbHelper) (rows : Rows) :
    (getLabeledResults dbHelper rows).1.filter Event.isQuery = [] := by
  unfold getLabeledResults
  cases rows.Columns with
  | error e => simp
  | ok columns =>
    cases rows.ColumnTypes with
    | error e => simp
    | ok cts => exact getLabeledResultsLoop_no_query dbHelper rows columns cts rows.data []

theorem doSelect_query_events (env : Env) (a : Activity) (params : GoMap) :
    (a.doSelect env params).1.filter Event.isQuery = (a.query env params).1 := by
  have hq : (a.query env params).1.filter Event.isQuery = (a.query env params).1 := by
    unfold Activity.query
    cases a.stmt <;> simp [List.filter, Event.isQuery]
  unfold Activity.doSelect
  cases hr : (a.query env params).2 with
  | error e => simpa using hq
  | ok rows =>
    simp only []
    cases hl : a.labeledResults with
    | true =>
      simp only [if_true]
      cases hg : (getLabeledResults a.dbHelper rows).2 with
      | panic =>
        simp [List.filter_append, hq, getLabeledResults_no_query, List.filter, Event.isQuery]
      | ret res err =>
        cases err <;>
          simp [List.filter_append, hq, getLabeledResults_no_query, List.filter, Event.isQuery]
    | false =>
      simp only [Bool.false_eq_true, if_false]
      rcases hg : (getResults a.dbHelper rows).2 with ⟨res, err⟩
      cases err <;>
        simp [List.filter_append, hq, getResults_no_query, List.filter, Event.isQuery]

/-- C6. An activity returned by `New` has a prepared statement exactly when
`DisablePrepared` is false.  `doSelect` executes exactly one query: through the
prepared statement with the arguments of `GetPreparedStatementArgs` when there
is one, otherwise the text of `ToStatementSQL` on the connection. -/
theorem doSelect_strategy (env : Env) (ctx : InitContext) (s : Settings) (act : Activity)
    (params : GoMap)
    (hs : ctx.MapToStruct newSettings = .ok s)
    (hact : (New env ctx).2.1 = some act) :
    (act.stmt.isSome = true ↔ s.DisablePrepared = false) ∧
    (∀ stmt, act.stmt = some stmt →
      (act.doSelect env params).1.filter Event.isQuery =
        [Event.stmtQuery stmt (act.sqlStatement.GetPreparedStatementArgs params)] ∧
      (act.query env params).2 =
        env.stmtQuery stmt (act.sqlStatement.GetPreparedStatementArgs params)) ∧
    (act.stmt = none →
      (act.doSelect env params).1.filter Event.isQuery =
        [Event.dbQuery act.db (act.sqlStatement.ToStatementSQL params)] ∧
      (act.query env params).2 =
        env.dbQuery act.db (act.sqlStatement.ToStatementSQL params)) := by
  obtain ⟨s1, hs1, _, hstmt⟩ := New_some env ctx act hact
  rw [hs] at hs1
  cases hs1
  refine ⟨?_, ?_, ?_⟩
  · rw [hstmt]
    cases s.DisablePrepared <;> simp
  · intro stmt hst
    rw [doSelect_query_events]
    simp [Activity.query, hst]
  · intro hst
    rw [doSelect_query_events]
    simp [Activity.query, hst]

/-- The select activity built with prepared statements enabled queries
through its prepared statement. -/
theorem doSelect_strategy_witness :
    ctxSelect.MapToStruct newSettings = .ok settingsSelect ∧
    (New (envWith rowsABA) ctxSelect).2.1 = some actSelect ∧
    (actSelect.stmt.isSome = true ↔ settingsSelect.DisablePrepared = false) ∧
    (∀ stmt, actSelect.stmt = some stmt →
      (actSelect.doSelect (envWith rowsABA) [("dept", Value.text "eng")]).1.filter
          Event.isQuery =
        [Event.stmtQuery stmt
          (actSelect.sqlStatement.GetPreparedStatementArgs [("dept", Value.text "eng")])] ∧
      (actSelect.query (envWith rowsABA) [("dept", Value.text "eng")]).2 =
        (envWith rowsABA).stmtQuery stmt
          (actSelect.sqlStatement.GetPreparedStatementArgs [("dept", Value.text "eng")])) ∧
    (actSelect.stmt = none →
      (actSelect.doSelect (envWith rowsABA) [("dept", Value.text "eng")]).1.filter
          Event.isQuery =
        [Event.dbQuery actSelect.db
          (actSelect.sqlStatement.ToStatementSQL [("dept", Value.text "eng")])] ∧
      (actSelect.query (envWith rowsABA) [("dept", Value.text "eng")]).2 =
        (envWith rowsABA).dbQuery actSelect.db
          (actSelect.sqlStatement.ToStatementSQL [("dept", Value.text "eng")])) :=
  ⟨rfl, rfl,
    doSelect_strategy (envWith rowsABA) ctxSelect settingsSelect actSelect
      [("dept", Value.text "eng")] rfl rfl⟩

/-- C7. `getConnection` calls `SetMaxOpenConns` exactly when the open succeeds
and `MaxOpenConns` is positive, with that value, and `SetMaxIdleConns` exactly
when the open succeeds and `MaxIdleConns` is not 2, with that value; 2 is the
value `New` loads into the settings before they are filled. -/
theorem getConnection_pool_settings (env : Env) (s : Settings) :
    (∀ n, Event.setMaxOpenConns n ∈ (getConnection env s).1 ↔
      (env.sqlOpen s.DriverName s.DataSourceName = none ∧ 0 < s.MaxOpenConns ∧
        n = s.MaxOpenConns)) ∧
    (∀ n, Event.setMaxIdleConns n ∈ (getConnection env s).1 ↔
      (env.sqlOpen s.DriverName s.DataSourceName = none ∧ s.MaxIdleConns ≠ 2 ∧
        n = s.MaxIdleConns)) ∧
    (getConnection env s).1.Nodup ∧
    newSettings.MaxIdleConns = 2 := by
  unfold getConnection
  cases ho : env.sqlOpen s.DriverName s.DataSourceName with
  | some err => simp [newSettings]
  | none =>
    by_cases h1 : s.MaxOpenConns > 0 <;> by_cases h2 : s.MaxIdleConns = 2 <;>
      simp [h1, h2, newSettings]

theorem run_eq (env : Env) (a : Activity) : ∀ calls : List Call, a.run env calls = a
  | [] => rfl
  | c :: cs => by
    cases c <;> simp [Activity.run, Activity.call, run_eq env a cs]

theorem doSelect_positional (env : Env) (a : Activity) (params : GoMap) (rows : Rows)
    (hl : a.labeledResults = false) (hq : (a.query env params).2 = .ok rows) :
    (a.doSelect env params).1 =
      (a.query env params).1 ++ (getResults a.dbHelper rows).1 ++ [Event.rowsClose] ∧
    ((getResults a.dbHelper rows).2.2 = none →
      (a.doSelect env params).2 =
        Go.ret (some (ResultSet.positional (getResults a.dbHelper rows).2.1)) none) ∧
    (∀ e, (getResults a.dbHelper rows).2.2 = some e →
      (a.doSelect env params).2 = Go.ret none (some e)) := by
  unfold Activity.doSelect
  simp only [hq, hl, Bool.false_eq_true, if_false]
  rcases hg : (getResults a.dbHelper rows).2 with ⟨res, err⟩
  cases err <;> simp

theorem doSelect_not_labeled (env : Env) (a : Activity) (params : GoMap)
    (hl : a.labeledResults = false) (rs : List GoMap) (e : Option GoError) :
    (a.doSelect env params).2 ≠ Go.ret (some (ResultSet.labeled rs)) e := by
  unfold Activity.doSelect
  cases hq : (a.query env params).2 with
  | error e1 => simp
  | ok rows =>
    simp only [hl, Bool.false_eq_true, if_false]
    rcases hg : (getResults a.dbHelper rows).2 with ⟨res, err⟩
    cases err <;> simp

/-- C10. An activity returned by `New` has `labeledResults = false`, and it
still has after any sequence of calls of `Metadata`, `Cleanup`, `Eval` and
`doSelect`; every `doSelect` on it then materializes the cursor with
`getResults`, and never returns a labeled result set. -/
theorem New_activity_is_positional (env : Env) (ctx : InitContext) (act : Activity)
    (hact : (New env ctx).2.1 = some act) :
    act.labeledResults = false ∧
    (∀ calls : List Call, (act.run env calls).labeledResults = false) ∧
    (∀ (calls : List Call) (params : GoMap) (rows : Rows),
      ((act.run env calls).query env params).2 = .ok rows →
      ((act.run env calls).doSelect env params).1 =
        ((act.run env calls).query env params).1 ++
          (getResults (act.run env calls).dbHelper rows).1 ++ [Event.rowsClose] ∧
      ((getResults (act.run env calls).dbHelper rows).2.2 = none →
        ((act.run env calls).doSelect env params).2 =
          Go.ret (some (ResultSet.positional
            (getResults (act.run env calls).dbHelper rows).2.1)) none) ∧
      (∀ e, (getResults (act.run env calls).dbHelper rows).2.2 = some e →
        ((act.run env calls).doSelect env params).2 = Go.ret none (some e))) ∧
    (∀ (calls : List Call) (params : GoMap) (rs : List GoMap) (e : Option GoError),
      ((act.run env calls).doSelect env params).2 ≠
        Go.ret (some (ResultSet.labeled rs)) e) := by
  obtain ⟨_, _, hl, _⟩ := New_some env ctx act hact
  refine ⟨hl, ?_, ?_, ?_⟩
  · intro calls
    rw [run_eq]
    exact hl
  · intro calls params rows hq
    rw [run_eq] at hq ⊢
    exact doSelect_positional env act params rows hl hq
  · intro calls params rs e
    rw [run_eq]
    exact doSelect_not_labeled env act params hl rs e

/-- The select activity built by `New` is positional, stays so over calls, and
its `doSelect` returns the positional rows of `getResults`. -/
theorem New_activity_is_positional_witness :
    (New (envWith rowsABA) ctxSelect).2.1 = some actSelect ∧
    actSelect.labeledResults = false ∧
    (actSelect.run (envWith rowsABA)
      [Call.doSelect [("dept", Value.text "eng")], Call.Metadata, Call.Cleanup]).labeledResults
        = false ∧
    (actSelect.doSelect (envWith rowsABA) [("dept", Value.text "eng")]).2 =
      Go.ret (some (ResultSet.positional
        [[Value.slot SlotKind.dynamic (Value.int 1), Value.slot SlotKind.dynamic (Value.int 2),
          Value.slot SlotKind.dynamic (Value.int 3)]])) none := by
  have h := New_activity_is_positional (envWith rowsABA) ctxSelect actSelect rfl
  refine ⟨rfl, h.1, h.2.1 _, ?_⟩
  have h3 := (h.2.2.1 [] [("dept", Value.text "eng")] rowsABA rfl).2.1 (by decide)
  exact h3.trans (by decide)

end sqlquery

/-! ## Theorems about string.trimLeft -/

namespace fnstring

theorem TrimLeft_self (s : String) : TrimLeft s s = "" := by
  unfold TrimLeft
  by_cases h : s = ""
  · simp [h]
  · simp only [h, or_self, if_false]
    have : s.data.dropWhile (fun c => decide (c ∈ s.data)) = [] := by
      rw [List.dropWhile_eq_nil_iff]
      intro x hx
      simpa using hx
    rw [this]

/-- C8. For string parameters `Eval` trims the first parameter by the first
parameter itself, so it returns the empty string whatever the cutset is; on
`("xxabc", "x")` it returns the empty string where `strings.TrimLeft` with the
second parameter gives "abc", and on `("abc", "x")` the empty string where it
gives "abc". -/
theorem fnTrimLeft_Eval_ignores_cutset :
    (∀ s cutset : String, fnTrimLeft.Eval [Arg.str s, Arg.str cutset] = EvalResult.ok "") ∧
    fnTrimLeft.Eval [Arg.str "xxabc", Arg.str "x"] = EvalResult.ok "" ∧
    TrimLeft "xxabc" "x" = "abc" ∧
    fnTrimLeft.Eval [Arg.str "abc", Arg.str "x"] = EvalResult.ok "" ∧
    TrimLeft "abc" "x" = "abc" := by
  refine ⟨?_, by decide, by decide, by decide, by decide⟩
  intro s cutset
  simp [fnTrimLeft.Eval, coerceToString, TrimLeft_self]

end fnstring
